import Mathlib

/-!
# Verification of the `logging` package (log.go)

A shallow embedding of the leveled logger from `log.go`:
severity threshold filtering (`Level.includes`), the eight severity-tagged
write methods, the shared output path (`Logger.output`), the header formatter
(`formatHeader` / `itoa`), runtime reconfiguration (`SetLevel`, `SetSentry`, …)
and release (`Close`).

External collaborators (the sink's write, the Sentry client construction,
`runtime.Caller`, the wall clock, `fmt` rendering) are modelled as inputs:
their outcomes are parameters, and the observable actions the logger performs
on them are recorded as an effect trace.
-/

namespace GoLogging

/-- `type Level string` — the severity/threshold type is a string type. -/
abbrev Level := String

/-- `DebugLvl Level = "DEBUG"` -/
def DebugLvl : Level := "DEBUG"

/-- `InfoLvl Level = "INFO"` -/
def InfoLvl : Level := "INFO"

/-- `WarnLvl Level = "WARN"` -/
def WarnLvl : Level := "WARN"

/-- `ErrorLvl Level = "ERROR"` -/
def ErrorLvl : Level := "ERROR"

/-- `func (l Level) includes(other Level) bool` — the switch on the
threshold `l`, fail-open (`default: return true`). -/
def Level.includes (l other : Level) : Bool :=
  if l == InfoLvl then
    other != DebugLvl
  else if l == WarnLvl then
    other != DebugLvl && other != InfoLvl
  else if l == ErrorLvl then
    other != DebugLvl && other != InfoLvl && other != WarnLvl
  else
    true

/-- Abstract handle for a constructed `*raven.Client` (the error-tracking
collaborator is an opaque external service; only its identity matters). -/
structure SentryClient where
  id : Nat
deriving DecidableEq, Repr

/-- Abstract handle for a non-nil `io.Writer` sink; `isCloser` records whether
the dynamic type additionally implements `io.Closer`. -/
structure Sink where
  isCloser : Bool
deriving DecidableEq, Repr

/-- The `Logger` struct.  `out = none` models a nil `io.Writer`,
`sentry = none` a nil `*raven.Client`.  The mutex guards concurrency only and
has no sequential content, so it is not part of the state. -/
structure Logger where
  level : Level
  out : Option Sink
  sentry : Option SentryClient
  calldepth : Nat
  buf : String
deriving DecidableEq, Repr

/-- Observable actions performed on the external collaborators. -/
inductive Effect where
  | wrote (line : String)
  | stderrWrite (text : String)
  | sentryForward (msg : String)
  | sentryRelease (id : Nat)
  | sinkRelease
deriving DecidableEq, Repr

/-- A wall-clock instant as decomposed by `now.Date()` and `now.Clock()`. -/
structure DateTime where
  year : Nat
  month : Nat
  day : Nat
  hour : Nat
  minute : Nat
  second : Nat
deriving DecidableEq, Repr

/-- The external environment of one log call: the captured instant, the
result of `runtime.Caller` (`none` = resolution failed), the error returned
by the sink's `Write` (`none` = success), and the `time.Now().String()`
timestamp used in the stderr fallback. -/
structure OutputCtx where
  now : DateTime
  caller : Option (String × Nat)
  writeErr : Option String
  stderrTime : String
deriving DecidableEq, Repr

/-- The digit-assembly loop of `itoa`:
`for ; u > 0 || wid > 0; u /= 10 { wid--; b[bp] = byte(u%10) + '0' }`,
producing the digits most-significant first. -/
def itoaDigits (u : Nat) (wid : Int) : List Char :=
  if 0 < u ∨ 0 < wid then
    itoaDigits (u / 10) (wid - 1) ++ [Char.ofNat (u % 10 + 48)]
  else
    []
termination_by u + wid.toNat
decreasing_by
  rcases Nat.eq_zero_or_pos u with hu | hu
  · subst hu
    simp only [Nat.zero_div]
    omega
  · have h2 : (wid - 1).toNat ≤ wid.toNat := by omega
    omega

/-- `func itoa(buf *[]byte, i int, wid int)` — cheap integer to fixed-width
decimal ASCII; negative width avoids zero-padding.  The integer argument is a
`Nat` because every call site passes a non-negative value (`uint` in the
source). -/
def itoa (buf : String) (i : Nat) (wid : Int) : String :=
  if i = 0 ∧ wid ≤ 1 then
    buf.push '0'
  else
    buf ++ String.mk (itoaDigits i wid)

/-- `func (l *Logger) formatHeader(buf, now, file, line, level)` — appends
`YYYY-MM-DDTHH:MM:SS [LEVEL] file:line: ` to `buf`. -/
def formatHeader (buf : String) (now : DateTime) (file : String) (line : Nat)
    (level : Level) : String :=
  let b := itoa buf now.year 4
  let b := b.push '-'
  let b := itoa b now.month 2
  let b := b.push '-'
  let b := itoa b now.day 2
  let b := b.push 'T'
  let b := itoa b now.hour 2
  let b := b.push ':'
  let b := itoa b now.minute 2
  let b := b.push ':'
  let b := itoa b now.second 2
  let b := b ++ " [" ++ level ++ "] "
  let b := b ++ file
  let b := b.push ':'
  let b := itoa b line (-1)
  b ++ ": "

/-- The file reported by `runtime.Caller`, or the sentinel `"???"` when
resolution failed (`!ok`). -/
def resolvedFile (ctx : OutputCtx) : String :=
  match ctx.caller with
  | some fl => fl.1
  | none => "???"

/-- The line reported by `runtime.Caller`, or the sentinel `0` when
resolution failed (`!ok`). -/
def resolvedLine (ctx : OutputCtx) : Nat :=
  match ctx.caller with
  | some fl => fl.2
  | none => 0

/-- `func (l *Logger) output(calldepth int, s string) error` — truncates the
scratch buffer, appends header and message, appends `'\n'` when
`len(s) > 0 && s[len(s)-1] != '\n'`, writes the buffer to the sink once, and
returns the write's error.  Returns the updated logger, the effect of the
single `Write` call, and the error value. -/
def Logger.output (l : Logger) (calldepth : Nat) (ctx : OutputCtx) (s : String) :
    Logger × List Effect × Option String :=
  let file := resolvedFile ctx
  let line := resolvedLine ctx
  let buf := ""
  let buf := formatHeader buf ctx.now file line l.level
  let buf := buf ++ s
  let buf := if s.length > 0 && s.back != '\n' then buf.push '\n' else buf
  ({ l with buf := buf }, [Effect.wrote buf], ctx.writeErr)

/-- `func (l Logger) log(msg ...interface{})` — `s` is the already rendered
`fmt.Sprint(msg...)`.  A write error is written to stderr prefixed with the
current timestamp, and is not returned. -/
def Logger.log (l : Logger) (ctx : OutputCtx) (s : String) : Logger × List Effect :=
  let r := l.output (l.calldepth + 2) ctx s
  match r.2.2 with
  | some e => (r.1, r.2.1 ++ [Effect.stderrWrite (ctx.stderrTime ++ " " ++ e)])
  | none => (r.1, r.2.1)

/-- `func (l Logger) logf(format string, msg ...interface{})` — `s` is the
already rendered `fmt.Sprintf(format, msg...)`. -/
def Logger.logf (l : Logger) (ctx : OutputCtx) (s : String) : Logger × List Effect :=
  let r := l.output (l.calldepth + 2) ctx s
  match r.2.2 with
  | some e => (r.1, r.2.1 ++ [Effect.stderrWrite (ctx.stderrTime ++ " " ++ e)])
  | none => (r.1, r.2.1)

/-- `Debugf`: nil-sink check, then threshold check against `DebugLvl`,
then `logf`. -/
def Logger.Debugf (l : Logger) (ctx : OutputCtx) (s : String) : Logger × List Effect :=
  if l.out = none then (l, [])
  else if !(l.level.includes DebugLvl) then (l, [])
  else l.logf ctx s

/-- `Debug`: nil-sink check, then threshold check against `DebugLvl`,
then `log`. -/
def Logger.Debug (l : Logger) (ctx : OutputCtx) (s : String) : Logger × List Effect :=
  if l.out = none then (l, [])
  else if !(l.level.includes DebugLvl) then (l, [])
  else l.log ctx s

/-- `Infof`: nil-sink check, then threshold check against `InfoLvl`,
then `logf`. -/
def Logger.Infof (l : Logger) (ctx : OutputCtx) (s : String) : Logger × List Effect :=
  if l.out = none then (l, [])
  else if !(l.level.includes InfoLvl) then (l, [])
  else l.logf ctx s

/-- `Info`: nil-sink check, then threshold check against `InfoLvl`,
then `log`. -/
def Logger.Info (l : Logger) (ctx : OutputCtx) (s : String) : Logger × List Effect :=
  if l.out = none then (l, [])
  else if !(l.level.includes InfoLvl) then (l, [])
  else l.log ctx s

/-- `Warnf`: nil-sink check, then threshold check against `WarnLvl`,
then `logf`. -/
def Logger.Warnf (l : Logger) (ctx : OutputCtx) (s : String) : Logger × List Effect :=
  if l.out = none then (l, [])
  else if !(l.level.includes WarnLvl) then (l, [])
  else l.logf ctx s

/-- `Warn`: nil-sink check, then threshold check against `WarnLvl`,
then `log`. -/
def Logger.Warn (l : Logger) (ctx : OutputCtx) (s : String) : Logger × List Effect :=
  if l.out = none then (l, [])
  else if !(l.level.includes WarnLvl) then (l, [])
  else l.log ctx s

/-- `Errorf`: nil-sink check, then threshold check against `ErrorLvl`,
then `logf`. -/
def Logger.Errorf (l : Logger) (ctx : OutputCtx) (s : String) : Logger × List Effect :=
  if l.out = none then (l, [])
  else if !(l.level.includes ErrorLvl) then (l, [])
  else l.logf ctx s

/-- `Error`: nil-sink check, then threshold check against `ErrorLvl`,
then `log`. -/
def Logger.Error (l : Logger) (ctx : OutputCtx) (s : String) : Logger × List Effect :=
  if l.out = none then (l, [])
  else if !(l.level.includes ErrorLvl) then (l, [])
  else l.log ctx s

/-- Modelled from the spec: `raven.Client.Close`, the collaborator's release
operation, lives in the raven dependency and is not under `src/`.  Per the
spec it releases the client's resources; on an absent (nil) client the call
is a no-op and does not throw. -/
def ravenClose (c : Option SentryClient) : List Effect :=
  match c with
  | some cl => [Effect.sentryRelease cl.id]
  | none => []

/-- `func (l Logger) Close()` — calls `l.sentry.Close()` unconditionally and
then the sink's `Close` when its dynamic type is an `io.Closer` (the type
assertion fails on a nil sink). -/
def Logger.Close (l : Logger) : List Effect :=
  ravenClose l.sentry ++
    (match l.out with
     | some sink => if sink.isCloser then [Effect.sinkRelease] else []
     | none => [])

/-- `func (l Logger) GetLevel() Level` -/
def Logger.GetLevel (l : Logger) : Level :=
  l.level

/-- `func (l *Logger) SetLevel(lvl Level)` -/
def Logger.SetLevel (l : Logger) (lvl : Level) : Logger :=
  { l with level := lvl }

/-- `func (l *Logger) SetOutput(out io.Writer)` -/
def Logger.SetOutput (l : Logger) (out : Option Sink) : Logger :=
  { l with out := out }

/-- `func (l *Logger) SetCallDepth(depth int)` -/
def Logger.SetCallDepth (l : Logger) (depth : Nat) : Logger :=
  { l with calldepth := depth }

/-- `func (l *Logger) SetSentry(dsn string, tags map[string]string) error` —
`newClient` is the outcome of the external `raven.NewClient(dsn, tags)`.
On error the error is returned and nothing is mutated; on success the old
client (if any) is closed and the new one installed.  Returns the updated
logger, the effects, and the returned error. -/
def Logger.SetSentry (l : Logger) (newClient : Except String SentryClient) :
    Logger × List Effect × Option String :=
  match newClient with
  | Except.error e => (l, [], some e)
  | Except.ok c =>
      ({ l with sentry := some c },
       (match l.sentry with
        | some old => [Effect.sentryRelease old.id]
        | none => []),
       none)

/-! ### Specification-side rendering definitions

These formalise the spec's wording for decimal rendering: minimal-width
decimal digits, and zero-padding to a fixed width.  They are compared with
the source-derived `itoa`. -/

/-- The digits of `n` in base 10, most significant first; empty for `0`. -/
def minDigits (n : Nat) : List Char :=
  if h : n = 0 then []
  else minDigits (n / 10) ++ [Char.ofNat (n % 10 + 48)]
termination_by n
decreasing_by exact Nat.div_lt_self (Nat.pos_of_ne_zero h) (by omega)

/-- Minimum-width decimal representation of `n` (so `0` is `"0"`), as chars. -/
def natReprL (n : Nat) : List Char :=
  if n = 0 then ['0'] else minDigits n

/-- `n` rendered in decimal, zero-padded on the left to width `w`, as chars. -/
def zeroPadL (w : Nat) (n : Nat) : List Char :=
  List.replicate (w - (natReprL n).length) '0' ++ natReprL n

/-- Minimum-width decimal representation of `n`. -/
def natRepr (n : Nat) : String :=
  String.mk (natReprL n)

/-- `n` rendered in decimal, zero-padded on the left to width `w`. -/
def zeroPad (w : Nat) (n : Nat) : String :=
  String.mk (zeroPadL w n)

/-! ### Concrete fixtures used for counterexamples and witnesses -/

/-- The instant 2024-03-05T07:08:09 from the spec's header example. -/
def dt0 : DateTime := ⟨2024, 3, 5, 7, 8, 9⟩

/-- A call environment: the fixed instant, caller resolved to
`pkg/mod.go:42`, a successful sink write, and timestamp `"ts"` for the
stderr fallback. -/
def ctx0 : OutputCtx := ⟨dt0, some ("pkg/mod.go", 42), none, "ts"⟩

/-- Like `ctx0` but the sink write fails with `"disk full"`. -/
def ctxErr : OutputCtx := ⟨dt0, some ("pkg/mod.go", 42), some "disk full", "ts"⟩

/-- Like `ctx0` but caller resolution fails. -/
def ctxNoCaller : OutputCtx := ⟨dt0, none, none, "ts"⟩

/-- A logger at threshold `INFO` with a sink and no Sentry client. -/
def lgr0 : Logger := ⟨InfoLvl, some ⟨false⟩, none, 0, ""⟩

/-- A logger at threshold `WARN` with a sink and a configured Sentry
client. -/
def lgrSentry : Logger := ⟨WarnLvl, some ⟨false⟩, some ⟨7⟩, 0, ""⟩

/-- A logger with no sink (`out = nil`). -/
def lgrNoSink : Logger := ⟨DebugLvl, none, some ⟨7⟩, 0, ""⟩

/-- Does an effect forward a message to the error-tracking collaborator? -/
def Effect.isSentryForward : Effect → Bool
  | Effect.sentryForward _ => true
  | _ => false

/-- Does an effect release the error-tracking collaborator? -/
def Effect.isSentryRelease : Effect → Bool
  | Effect.sentryRelease _ => true
  | _ => false

/-- The full line `output` builds in the scratch buffer and hands to the
single sink write: header, message, and conditional trailing newline. -/
def renderedLine (l : Logger) (ctx : OutputCtx) (s : String) : String :=
  (l.output (l.calldepth + 2) ctx s).1.buf

/-! ### String utilities -/

theorem push_append (b : String) (c : Char) : b.push c = b ++ String.mk [c] := by
  cases b
  rfl

theorem length_pos_iff_ne_empty (s : String) : 0 < s.length ↔ s ≠ "" := by
  constructor
  · intro h hc
    subst hc
    exact absurd h (by decide)
  · intro h
    cases s with
    | mk data =>
      cases data with
      | nil => exact absurd rfl h
      | cons c cs => exact Nat.succ_pos cs.length

/-! ### `itoa` versus the spec-side decimal rendering -/

theorem minDigits_zero : minDigits 0 = [] := by
  rw [minDigits]
  rfl

theorem minDigits_pos (n : Nat) (h : n ≠ 0) :
    minDigits n = minDigits (n / 10) ++ [Char.ofNat (n % 10 + 48)] := by
  rw [minDigits]
  exact dif_neg h

/-- With non-positive width, the `itoa` loop produces exactly the minimal
digits of `n`. -/
theorem itoaDigits_nonpos (n : Nat) : ∀ wid : Int, wid ≤ 0 →
    itoaDigits n wid = minDigits n := by
  induction n using Nat.strong_induction_on with
  | _ n ih =>
    intro wid hwid
    by_cases hn : n = 0
    · subst hn
      rw [itoaDigits, if_neg (by omega), minDigits_zero]
    · rw [itoaDigits, if_pos (Or.inl (Nat.pos_of_ne_zero hn)),
        minDigits_pos n hn,
        ih (n / 10) (Nat.div_lt_self (Nat.pos_of_ne_zero hn) (by omega)) (wid - 1) (by omega)]

/-- Appending the last digit of `n` to the width-`w` padding of `n / 10`
gives the width-`w + 1` padding of `n`. -/
theorem zeroPadL_step (w n : Nat) (hw : 0 < w) :
    zeroPadL w (n / 10) ++ [Char.ofNat (n % 10 + 48)] = zeroPadL (w + 1) n := by
  obtain ⟨k, rfl⟩ : ∃ k, w = k + 1 := ⟨w - 1, by omega⟩
  by_cases hn : n = 0
  · subst hn
    show zeroPadL (k + 1) 0 ++ [Char.ofNat 48] = zeroPadL (k + 2) 0
    rw [zeroPadL, zeroPadL, natReprL, if_pos rfl]
    show List.replicate k '0' ++ ['0'] ++ ['0'] = List.replicate (k + 1) '0' ++ ['0']
    rw [← List.replicate_succ' k '0']
  · by_cases hn10 : n / 10 = 0
    · rw [zeroPadL, zeroPadL, hn10, natReprL, if_pos rfl, natReprL, if_neg hn,
        minDigits_pos n hn, hn10, minDigits_zero]
      show List.replicate k '0' ++ ['0'] ++ [Char.ofNat (n % 10 + 48)] =
        List.replicate (k + 2 - 1) '0' ++ ([] ++ [Char.ofNat (n % 10 + 48)])
      rw [← List.replicate_succ' k '0']
      simp
    · rw [zeroPadL, zeroPadL, natReprL, if_neg hn10, natReprL, if_neg hn,
        minDigits_pos n hn]
      have hlen : (minDigits (n / 10) ++ [Char.ofNat (n % 10 + 48)]).length =
          (minDigits (n / 10)).length + 1 := by simp
      rw [hlen]
      have harith : k + 2 - ((minDigits (n / 10)).length + 1) =
          k + 1 - (minDigits (n / 10)).length := by omega
      rw [harith, List.append_assoc]

/-- With positive width `w + 1` and `n < 10 ^ (w + 1)`, the `itoa` loop
produces exactly the zero-padded width-`w + 1` rendering of `n`. -/
theorem itoaDigits_pad : ∀ (w n : Nat), n < 10 ^ (w + 1) →
    itoaDigits n ((w : Int) + 1) = zeroPadL (w + 1) n := by
  intro w
  induction w with
  | zero =>
    intro n hn
    rw [itoaDigits, if_pos (by omega)]
    have h10 : n / 10 = 0 := Nat.div_eq_of_lt (by simpa using hn)
    rw [h10]
    have e : (((0 : Nat) : Int) + 1 - 1) = 0 := by norm_num
    rw [e, itoaDigits, if_neg (by omega)]
    by_cases hn0 : n = 0
    · subst hn0
      rw [zeroPadL, natReprL, if_pos rfl]
      rfl
    · rw [zeroPadL, natReprL, if_neg hn0, minDigits_pos n hn0, h10, minDigits_zero]
      simp
  | succ k ih =>
    intro n hn
    rw [itoaDigits, if_pos (by omega)]
    have hcast : (((k + 1 : Nat) : Int) + 1 - 1) = (k : Int) + 1 := by push_cast; ring
    rw [hcast]
    have hdiv : n / 10 < 10 ^ (k + 1) := by
      rw [Nat.div_lt_iff_lt_mul (by omega)]
      calc n < 10 ^ (k + 1 + 1) := hn
        _ = 10 ^ (k + 1) * 10 := by rw [pow_succ]
    rw [ih (n / 10) hdiv]
    exact zeroPadL_step (k + 1) n (by omega)

/-- `itoa` with width `w ≥ 2` appends the zero-padded width-`w` decimal
rendering of `n` (for `n` in range). -/
theorem itoa_pos_width (b : String) (n w : Nat) (h2 : 2 ≤ w) (hn : n < 10 ^ w) :
    itoa b n (w : Int) = b ++ zeroPad w n := by
  obtain ⟨k, rfl⟩ : ∃ k, w = k + 1 := ⟨w - 1, by omega⟩
  rw [itoa, if_neg (by omega)]
  rw [show (((k : Nat) + 1 : Nat) : Int) = (k : Int) + 1 by omega]
  rw [itoaDigits_pad k n hn]
  rfl

/-- `itoa` with width `-1` appends the minimum-width decimal rendering. -/
theorem itoa_minwidth (b : String) (n : Nat) :
    itoa b n (-1) = b ++ natRepr n := by
  by_cases hn : n = 0
  · subst hn
    rw [itoa, if_pos ⟨rfl, by omega⟩]
    rw [natRepr, natReprL, if_pos rfl, ← push_append]
  · rw [itoa, if_neg (by simp [hn]), itoaDigits_nonpos n (-1) (by omega),
      natRepr, natReprL, if_neg hn]

theorem itoa_w4 (b : String) (n : Nat) (hn : n < 10000) :
    itoa b n 4 = b ++ zeroPad 4 n := by
  have := itoa_pos_width b n 4 (by norm_num) (by norm_num [hn])
  simpa using this

theorem itoa_w2 (b : String) (n : Nat) (hn : n < 100) :
    itoa b n 2 = b ++ zeroPad 2 n := by
  have := itoa_pos_width b n 2 (by norm_num) (by norm_num [hn])
  simpa using this

theorem data_empty : ("" : String).data = [] := rfl

theorem data_dash : ("-" : String).data = ['-'] := rfl

theorem data_T : ("T" : String).data = ['T'] := rfl

theorem data_colon : (":" : String).data = [':'] := rfl

theorem data_lbrack : (" [" : String).data = [' ', '['] := rfl

theorem data_rbrack : ("] " : String).data = [']', ' '] := rfl

theorem data_colonsp : (": " : String).data = [':', ' '] := rfl

theorem push_newline (b : String) : b.push '\n' = b ++ "\n" := by
  cases b
  rfl

/-! ### Helper lemmas: the write path emits no Sentry forwarding effect -/

theorem log_no_sentry_forward (l : Logger) (ctx : OutputCtx) (s : String) :
    (l.log ctx s).2.filter Effect.isSentryForward = [] := by
  rcases h : ctx.writeErr with _ | e <;>
    simp [Logger.log, Logger.output, h, Effect.isSentryForward]

theorem logf_no_sentry_forward (l : Logger) (ctx : OutputCtx) (s : String) :
    (l.logf ctx s).2.filter Effect.isSentryForward = [] := by
  rcases h : ctx.writeErr with _ | e <;>
    simp [Logger.logf, Logger.output, h, Effect.isSentryForward]

theorem debug_no_forward (l : Logger) (ctx : OutputCtx) (s : String) :
    (l.Debug ctx s).2.filter Effect.isSentryForward = [] := by
  rw [Logger.Debug]
  split
  · rfl
  · split
    · rfl
    · exact log_no_sentry_forward l ctx s

theorem debugf_no_forward (l : Logger) (ctx : OutputCtx) (s : String) :
    (l.Debugf ctx s).2.filter Effect.isSentryForward = [] := by
  rw [Logger.Debugf]
  split
  · rfl
  · split
    · rfl
    · exact logf_no_sentry_forward l ctx s

theorem info_no_forward (l : Logger) (ctx : OutputCtx) (s : String) :
    (l.Info ctx s).2.filter Effect.isSentryForward = [] := by
  rw [Logger.Info]
  split
  · rfl
  · split
    · rfl
    · exact log_no_sentry_forward l ctx s

theorem infof_no_forward (l : Logger) (ctx : OutputCtx) (s : String) :
    (l.Infof ctx s).2.filter Effect.isSentryForward = [] := by
  rw [Logger.Infof]
  split
  · rfl
  · split
    · rfl
    · exact logf_no_sentry_forward l ctx s

theorem warn_no_forward (l : Logger) (ctx : OutputCtx) (s : String) :
    (l.Warn ctx s).2.filter Effect.isSentryForward = [] := by
  rw [Logger.Warn]
  split
  · rfl
  · split
    · rfl
    · exact log_no_sentry_forward l ctx s

theorem warnf_no_forward (l : Logger) (ctx : OutputCtx) (s : String) :
    (l.Warnf ctx s).2.filter Effect.isSentryForward = [] := by
  rw [Logger.Warnf]
  split
  · rfl
  · split
    · rfl
    · exact logf_no_sentry_forward l ctx s

theorem error_no_forward (l : Logger) (ctx : OutputCtx) (s : String) :
    (l.Error ctx s).2.filter Effect.isSentryForward = [] := by
  rw [Logger.Error]
  split
  · rfl
  · split
    · rfl
    · exact log_no_sentry_forward l ctx s

theorem errorf_no_forward (l : Logger) (ctx : OutputCtx) (s : String) :
    (l.Errorf ctx s).2.filter Effect.isSentryForward = [] := by
  rw [Logger.Errorf]
  split
  · rfl
  · split
    · rfl
    · exact logf_no_sentry_forward l ctx s

/-! ### Claim theorems -/

/-- C1: the claim (and the doc comments on `Warn`, `Warnf`, `Error`, `Errorf`
in the source) says every admitted Warn/Error call forwards the rendered
message to the configured Sentry collaborator exactly once.  The code never
does: no method of the write path ever touches `l.sentry`.  The first
conjunct evaluates an admitted `Warn` call on a logger with a configured
Sentry client and a sink: the only effect is the single sink write.  The
second conjunct shows no severity method ever emits a forwarding effect,
for any logger, environment and message (the Debug/Info half of the claim
holds for this reason, the Warn/Error half is contradicted). -/
theorem sentry_forwarding_absent :
    ((lgrSentry.Warn ctx0 "boom").2 =
      [Effect.wrote "2024-03-05T07:08:09 [WARN] pkg/mod.go:42: boom\n"]) ∧
    (∀ (l : Logger) (ctx : OutputCtx) (s : String),
      (l.Warn ctx s).2.filter Effect.isSentryForward = [] ∧
      (l.Warnf ctx s).2.filter Effect.isSentryForward = [] ∧
      (l.Error ctx s).2.filter Effect.isSentryForward = [] ∧
      (l.Errorf ctx s).2.filter Effect.isSentryForward = [] ∧
      (l.Debug ctx s).2.filter Effect.isSentryForward = [] ∧
      (l.Debugf ctx s).2.filter Effect.isSentryForward = [] ∧
      (l.Info ctx s).2.filter Effect.isSentryForward = [] ∧
      (l.Infof ctx s).2.filter Effect.isSentryForward = []) := by
  constructor
  · simp [Logger.Warn, Logger.log, Logger.output, lgrSentry, ctx0, dt0, resolvedFile,
      resolvedLine, formatHeader, itoa, itoaDigits, Level.includes, WarnLvl, DebugLvl, InfoLvl]
    decide
  · intro l ctx s
    exact ⟨warn_no_forward l ctx s, warnf_no_forward l ctx s,
      error_no_forward l ctx s, errorf_no_forward l ctx s,
      debug_no_forward l ctx s, debugf_no_forward l ctx s,
      info_no_forward l ctx s, infof_no_forward l ctx s⟩

/-- C2 counterexample: the claim says threshold `Error` admits only `Error`,
quantifying the entry level over all `Level` values.  But the code excludes
exactly `Debug`, `Info` and `Warn`, so the unrecognized entry level
`"TRACE"` is admitted at threshold `Error` although it differs from
`Error`. -/
theorem includes_error_threshold_cex :
    Level.includes ErrorLvl "TRACE" = true ∧ ("TRACE" : Level) ≠ ErrorLvl := by
  decide

/-- C2 (amended): `includes` matches the exclusion table: threshold `Info`
admits everything except `Debug`; `Warn` everything except `Debug` and
`Info`; `Error` everything except `Debug`, `Info` and `Warn` — which,
restricted to the four recognized severities, means only `Error`; `Debug`
and every unrecognized threshold admit everything (fail-open). -/
theorem includes_exclusion_table (e : Level) :
    Level.includes InfoLvl e = (e != DebugLvl) ∧
    Level.includes WarnLvl e = (e != DebugLvl && e != InfoLvl) ∧
    Level.includes ErrorLvl e = (e != DebugLvl && e != InfoLvl && e != WarnLvl) ∧
    Level.includes DebugLvl e = true ∧
    (∀ l : Level, l ≠ InfoLvl → l ≠ WarnLvl → l ≠ ErrorLvl → Level.includes l e = true) ∧
    ((e = DebugLvl ∨ e = InfoLvl ∨ e = WarnLvl ∨ e = ErrorLvl) →
      Level.includes ErrorLvl e = (e == ErrorLvl)) := by
  refine ⟨rfl, rfl, rfl, rfl, ?_, ?_⟩
  · intro l h1 h2 h3
    rw [Level.includes, if_neg (by simp [h1]), if_neg (by simp [h2]), if_neg (by simp [h3])]
  · rintro (rfl | rfl | rfl | rfl) <;> decide

theorem includes_exclusion_table_witness :
    Level.includes "VERBOSE" InfoLvl = true ∧
    Level.includes ErrorLvl WarnLvl = (WarnLvl == ErrorLvl) :=
  ⟨(includes_exclusion_table InfoLvl).2.2.2.2.1 "VERBOSE" (by decide) (by decide) (by decide),
   (includes_exclusion_table WarnLvl).2.2.2.2.2 (by decide)⟩

/-- C3 counterexample: the claim says every message not ending in a newline
gets exactly one newline appended.  The code guards the append with
`len(s) > 0`, so the empty message — which does not end in a newline — is
written with no newline appended: the line written for `s = ""` is exactly
the header, whose last character is a space. -/
theorem output_empty_message_cex :
    ("" : String).back ≠ '\n' ∧
    (lgr0.output 2 ctx0 "").2.1 =
      [Effect.wrote "2024-03-05T07:08:09 [INFO] pkg/mod.go:42: "] ∧
    ("2024-03-05T07:08:09 [INFO] pkg/mod.go:42: " : String).back ≠ '\n' := by
  refine ⟨by decide, ?_, by decide⟩
  simp [Logger.output, lgr0, ctx0, dt0, resolvedFile, resolvedLine, formatHeader, itoa,
    itoaDigits, InfoLvl]
  decide

/-- C3 (amended): for every message `s` written through the shared output
path, if `s` is nonempty and does not end in a newline then exactly one
newline byte is appended after the message bytes; if `s` is empty or
already ends in a newline then no newline is appended (no double
newline). -/
theorem output_trailing_newline (l : Logger) (cd : Nat) (ctx : OutputCtx) (s : String) :
    (s ≠ "" ∧ s.back ≠ '\n' ∧ (l.output cd ctx s).2.1 =
        [Effect.wrote
          (formatHeader "" ctx.now (resolvedFile ctx) (resolvedLine ctx) l.level ++ s ++ "\n")]) ∨
    ((s = "" ∨ s.back = '\n') ∧ (l.output cd ctx s).2.1 =
        [Effect.wrote
          (formatHeader "" ctx.now (resolvedFile ctx) (resolvedLine ctx) l.level ++ s)]) := by
  by_cases h1 : s = ""
  · right
    refine ⟨Or.inl h1, ?_⟩
    subst h1
    simp [Logger.output]
  · by_cases h2 : s.back = '\n'
    · right
      refine ⟨Or.inr h2, ?_⟩
      simp [Logger.output, h2]
    · left
      refine ⟨h1, h2, ?_⟩
      have hc : (s.length > 0 && s.back != '\n') = true := by
        simp [h2]
        exact (length_pos_iff_ne_empty s).mpr h1
      simp [Logger.output, hc, push_newline]

/-- C4: for a logger whose sink is nil, every one of the eight log methods
returns immediately: the logger is unchanged and no effect is produced, at
every severity and every threshold. -/
theorem nil_sink_noop (l : Logger) (ctx : OutputCtx) (s : String) (h : l.out = none) :
    l.Debug ctx s = (l, []) ∧ l.Debugf ctx s = (l, []) ∧
    l.Info ctx s = (l, []) ∧ l.Infof ctx s = (l, []) ∧
    l.Warn ctx s = (l, []) ∧ l.Warnf ctx s = (l, []) ∧
    l.Error ctx s = (l, []) ∧ l.Errorf ctx s = (l, []) := by
  refine ⟨?_, ?_, ?_, ?_, ?_, ?_, ?_, ?_⟩ <;>
    simp [Logger.Debug, Logger.Debugf, Logger.Info, Logger.Infof, Logger.Warn,
      Logger.Warnf, Logger.Error, Logger.Errorf, h]

theorem nil_sink_noop_witness :
    lgrNoSink.Debug ctx0 "x" = (lgrNoSink, []) ∧ lgrNoSink.Debugf ctx0 "x" = (lgrNoSink, []) ∧
    lgrNoSink.Info ctx0 "x" = (lgrNoSink, []) ∧ lgrNoSink.Infof ctx0 "x" = (lgrNoSink, []) ∧
    lgrNoSink.Warn ctx0 "x" = (lgrNoSink, []) ∧ lgrNoSink.Warnf ctx0 "x" = (lgrNoSink, []) ∧
    lgrNoSink.Error ctx0 "x" = (lgrNoSink, []) ∧ lgrNoSink.Errorf ctx0 "x" = (lgrNoSink, []) :=
  nil_sink_noop lgrNoSink ctx0 "x" rfl

/-- C5: for every instant whose fields are in range, every severity level,
file string and line number, `formatHeader` appends exactly
`YYYY-MM-DDTHH:MM:SS [LEVEL] file:line: `, with the year zero-padded to
width 4, month, day, hour, minute and second zero-padded to width 2, and
the line number at minimum width; in particular, at 2024-03-05T07:08:09
with level `INFO`, file `pkg/mod.go` and line 42 the header is exactly
`2024-03-05T07:08:09 [INFO] pkg/mod.go:42: `. -/
theorem formatHeader_spec :
    (∀ (now : DateTime) (file : String) (line : Nat) (level : Level),
      now.year < 10000 → now.month < 100 → now.day < 100 →
      now.hour < 100 → now.minute < 100 → now.second < 100 →
      formatHeader "" now file line level =
        zeroPad 4 now.year ++ "-" ++ zeroPad 2 now.month ++ "-" ++ zeroPad 2 now.day ++ "T" ++
        zeroPad 2 now.hour ++ ":" ++ zeroPad 2 now.minute ++ ":" ++ zeroPad 2 now.second ++
        " [" ++ level ++ "] " ++ file ++ ":" ++ natRepr line ++ ": ") ∧
    formatHeader "" dt0 "pkg/mod.go" 42 InfoLvl =
      "2024-03-05T07:08:09 [INFO] pkg/mod.go:42: " := by
  constructor
  · intro now file line level hy hmo hd hh hmi hs
    simp only [formatHeader]
    rw [itoa_w4 _ _ hy, itoa_w2 _ _ hmo, itoa_w2 _ _ hd, itoa_w2 _ _ hh,
      itoa_w2 _ _ hmi, itoa_w2 _ _ hs, itoa_minwidth]
    simp only [push_append]
    apply String.ext
    simp only [String.data_append, zeroPad, natRepr, data_empty, data_dash, data_T,
      data_colon, data_lbrack, data_rbrack, data_colonsp, List.append_assoc, List.nil_append]
  · simp [formatHeader, itoa, itoaDigits, dt0, InfoLvl]
    decide

theorem formatHeader_spec_witness :
    formatHeader "" dt0 "pkg/mod.go" 42 InfoLvl =
      zeroPad 4 2024 ++ "-" ++ zeroPad 2 3 ++ "-" ++ zeroPad 2 5 ++ "T" ++
      zeroPad 2 7 ++ ":" ++ zeroPad 2 8 ++ ":" ++ zeroPad 2 9 ++
      " [" ++ InfoLvl ++ "] " ++ "pkg/mod.go" ++ ":" ++ natRepr 42 ++ ": " :=
  formatHeader_spec.1 dt0 "pkg/mod.go" 42 InfoLvl (by decide) (by decide) (by decide)
    (by decide) (by decide) (by decide)

/-- C6: when collaborator construction fails, `SetSentry` returns the error
and leaves the logger unchanged — in particular the previously configured
collaborator stays installed and no release effect is emitted; when
construction succeeds, the previously configured collaborator (if any) is
released and the new one is installed. -/
theorem setSentry_spec (l : Logger) (e : String) (c : SentryClient) :
    l.SetSentry (Except.error e) = (l, [], some e) ∧
    (l.SetSentry (Except.ok c)).1 = { l with sentry := some c } ∧
    ((l.SetSentry (Except.ok c)).2 =
      ((match l.sentry with
        | some old => [Effect.sentryRelease old.id]
        | none => []), none)) :=
  ⟨rfl, rfl, rfl⟩

/-- C7: when the sink write fails, `log` and `logf` report the error text,
prefixed with the current timestamp, to the standard error stream and then
discard it: the effect trace is exactly the sink write followed by the
stderr fallback write, and the methods return no error to the caller
(their result type carries none). -/
theorem write_error_not_propagated (l : Logger) (ctx : OutputCtx) (s : String) (err : String)
    (h : ctx.writeErr = some err) :
    (l.log ctx s).2 = [Effect.wrote (renderedLine l ctx s),
      Effect.stderrWrite (ctx.stderrTime ++ " " ++ err)] ∧
    (l.logf ctx s).2 = [Effect.wrote (renderedLine l ctx s),
      Effect.stderrWrite (ctx.stderrTime ++ " " ++ err)] := by
  constructor <;> simp [Logger.log, Logger.logf, renderedLine, Logger.output, h]

theorem write_error_not_propagated_witness :
    (lgr0.log ctxErr "x").2 = [Effect.wrote (renderedLine lgr0 ctxErr "x"),
      Effect.stderrWrite ("ts" ++ " " ++ "disk full")] ∧
    (lgr0.logf ctxErr "x").2 = [Effect.wrote (renderedLine lgr0 ctxErr "x"),
      Effect.stderrWrite ("ts" ++ " " ++ "disk full")] :=
  write_error_not_propagated lgr0 ctxErr "x" "disk full" rfl

/-- C8: when caller resolution fails, `output` behaves exactly as if the
caller had resolved to the sentinel file `"???"` and line `0` — the header
is built with the sentinels and the write proceeds normally — and the
error returned by `output` is exactly the sink write outcome, so
resolution failure is never itself an error of the log call. -/
theorem caller_failure_sentinel (l : Logger) (cd : Nat) (ctx : OutputCtx) (s : String)
    (h : ctx.caller = none) :
    l.output cd ctx s = l.output cd { ctx with caller := some ("???", 0) } s ∧
    (l.output cd ctx s).2.2 = ctx.writeErr := by
  constructor
  · simp [Logger.output, resolvedFile, resolvedLine, h]
  · simp [Logger.output]

theorem caller_failure_sentinel_witness :
    lgr0.output 2 ctxNoCaller "x" =
      lgr0.output 2 { ctxNoCaller with caller := some ("???", 0) } "x" ∧
    (lgr0.output 2 ctxNoCaller "x").2.2 = ctxNoCaller.writeErr :=
  caller_failure_sentinel lgr0 2 ctxNoCaller "x" rfl

/-- C9: `Close` releases a configured error-tracking collaborator exactly
once (one release effect, also when the sink itself requires release),
emits no collaborator release when none was ever configured — and, the
collaborator release being modelled as nil-safe per the spec, does not
throw in that case — and additionally invokes the sink release exactly
when the sink exposes one. -/
theorem close_spec (l : Logger) :
    (∀ c, l.sentry = some c →
      (Logger.Close l).filter Effect.isSentryRelease = [Effect.sentryRelease c.id]) ∧
    (l.sentry = none → (Logger.Close l).filter Effect.isSentryRelease = []) ∧
    (Effect.sinkRelease ∈ Logger.Close l ↔ ∃ sink, l.out = some sink ∧ sink.isCloser = true) := by
  refine ⟨?_, ?_, ?_⟩
  · intro c hc
    rcases hout : l.out with _ | ⟨b⟩ <;> [skip; cases b] <;>
      simp [Logger.Close, ravenClose, hc, hout, Effect.isSentryRelease]
  · intro hc
    rcases hout : l.out with _ | ⟨b⟩ <;> [skip; cases b] <;>
      simp [Logger.Close, ravenClose, hc, hout, Effect.isSentryRelease]
  · rcases hs : l.sentry with _ | c <;> rcases hout : l.out with _ | ⟨b⟩ <;>
      [skip; cases b; skip; cases b] <;>
      simp [Logger.Close, ravenClose, hs, hout, Effect.isSentryRelease]

theorem close_spec_witness :
    (Logger.Close lgrSentry).filter Effect.isSentryRelease = [Effect.sentryRelease 7] ∧
    (Logger.Close lgr0).filter Effect.isSentryRelease = [] :=
  ⟨(close_spec lgrSentry).1 ⟨7⟩ rfl, (close_spec lgr0).2.1 rfl⟩

/-- C10: `SetLevel` followed by `GetLevel` returns exactly the level that
was set — for every value, including unrecognized strings — and `SetLevel`
changes no logger field other than the level. -/
theorem setLevel_getLevel (l : Logger) (x : Level) :
    (l.SetLevel x).GetLevel = x ∧ (l.SetLevel x).out = l.out ∧
    (l.SetLevel x).sentry = l.sentry ∧ (l.SetLevel x).calldepth = l.calldepth ∧
    (l.SetLevel x).buf = l.buf :=
  ⟨rfl, rfl, rfl, rfl, rfl⟩

end GoLogging
